import Mathlib

/-!
# Verification of the LearnWebGPU `Application` example (src/LearnWebGPU/Main.cpp)

A shallow embedding of the single-file WebGPU tutorial application.  The
program is a straight-line sequence of GPU-API calls organised in four
phases (`Initialize`, `MainLoop`, `Terminate`, `IsRunning`); we model the
observable API-call traces of each phase, the byte-level layout constants
(`sizeof(MyUniforms)`, `offsetof(MyUniforms, time)`, buffer sizes) and the
control flow of `main`.  The embedding follows the non-Emscripten desktop
build (the `while` loop in `main`, `surface.present()` enabled) with the
Dawn/wgpu device-poll at the end of a frame.

Machine arithmetic: `bufferDesc.size` is a `uint64_t`; the rounding
computation `(size + 3) & ~3` is modelled on `Nat` with an explicit
`% 2^64` and the 64-bit mask `2^64 - 4` (the value of `~3` as `uint64_t`).
`float` values that are only stored (never computed with) are modelled as
exact rationals.
-/

namespace LearnWebGPU

/-- GPU resource handles appearing in `Application` (plus the transient
handles created and released inside a single phase). -/
inductive Handle where
  | surface
  | device
  | queue
  | bindGroupLayout
  | layout          -- the pipeline layout member `layout`
  | pipeline
  | pointBuffer
  | indexBuffer
  | uniformBuffer
  | bindGroup
  | instanceH       -- the WebGPU instance (local to Initialize)
  | adapter         -- local to Initialize
  | shaderModule    -- local to InitializePipeline
  | surfaceTexture  -- local to GetNextSurfaceTextureView
  | targetView      -- the per-frame surface texture view
  | renderPassEnc   -- per-frame render pass encoder
  | commandEncoder  -- per-frame command encoder
  | commandBuffer   -- per-frame command buffer
deriving DecidableEq, Repr

/-- The GPU buffers written through `queue.writeBuffer`. -/
inductive BufId where
  | pointBuffer
  | indexBuffer
  | uniformBuffer
deriving DecidableEq, Repr

/-- Observable API calls of the application, in source order. -/
inductive Ev where
  | pollEvents
  | writeBuffer (buf : BufId) (offset size : Nat)
  | acquireSurfaceView            -- surface.getCurrentTexture + texture.createView
  | createCommandEncoder
  | beginRenderPass
  | setPipeline
  | setVertexBuffer (slot : Nat) (buf : BufId)
  | setIndexBuffer (buf : BufId)
  | setBindGroup (groupIndex : Nat)
  | drawIndexed (indexCount instanceCount firstIndex baseVertex firstInstance : Nat)
  | endPass
  | finishEncoder
  | submit
  | present
  | devicePoll
  | create (h : Handle)
  | release (h : Handle)
  | configureSurface
  | unconfigureSurface
  | createWindow
  | destroyWindow
deriving DecidableEq, Repr

/-! ## Byte-layout constants (struct `MyUniforms`)

```cpp
struct MyUniforms {
  std::array<float, 4> color;
  float time;
  float _pad[3];
};
static_assert(sizeof(MyUniforms) % 16 == 0);
```
-/

/-- Value of `sizeof(float)` on the targeted platforms. -/
def sizeofFloat : Nat := 4

/-- Value of `sizeof(MyUniforms)`: 4 floats of color, 1 float of time, 3 floats of
padding; no inter-field padding is inserted since every member has the
alignment of `float`. -/
def sizeofMyUniforms : Nat := 4 * sizeofFloat + sizeofFloat + 3 * sizeofFloat

/-- Value of `offsetof(MyUniforms, time)`: the `time` member follows the
`std::array<float, 4> color` member. -/
def offsetofTime : Nat := 4 * sizeofFloat

/-- The uniform data replicated from the shader, with the stored `float`
values modelled as exact rationals (they are only stored, never computed
with). -/
structure MyUniforms where
  color : ℚ × ℚ × ℚ × ℚ
  time : ℚ
deriving DecidableEq, Repr

/-- The initial uniform values uploaded by `InitializeBuffers`:
`uniforms.time = 1.0f; uniforms.color = { 0.0f, 1.0f, 0.4f, 1.0f };`. -/
def initialUniforms : MyUniforms :=
  { color := (0, 1, 0.4, 1), time := 1 }

/-! ## `GetNextSurfaceTextureView` and `MainLoop` -/

/-- Status reported by `surface.getCurrentTexture`. -/
inductive SurfaceStatus where
  | Success
  | Timeout
  | Outdated
  | Lost
  | OutOfMemory
  | DeviceLost
deriving DecidableEq, Repr

/-- Model of `Application::GetNextSurfaceTextureView`: returns `nullptr` when the
surface texture status is not `Success`, otherwise creates and returns a
view of the surface texture (the texture itself is released on non-wgpu
backends).  The returned handle is modelled as `Option Handle`; the events
performed on the success path are returned alongside. -/
def GetNextSurfaceTextureView (status : SurfaceStatus) : Option Handle :=
  if status ≠ SurfaceStatus.Success then
    none
  else
    some Handle.targetView

/-- Model of `Application::MainLoop`, as the trace of API calls it performs, given
the surface status the environment reports this frame and the loaded
`indexCount`.  The `time` uniform write happens before the surface texture
is acquired; on acquisition failure the function returns early. -/
def MainLoop (status : SurfaceStatus) (indexCount : Nat) : List Ev :=
  [Ev.pollEvents,
   Ev.writeBuffer BufId.uniformBuffer offsetofTime sizeofFloat] ++
  match GetNextSurfaceTextureView status with
  | none => []
  | some _ =>
    [Ev.acquireSurfaceView,
     Ev.create Handle.commandEncoder,
     Ev.beginRenderPass,
     Ev.setPipeline,
     Ev.setVertexBuffer 0 BufId.pointBuffer,
     Ev.setIndexBuffer BufId.indexBuffer,
     Ev.setBindGroup 0,
     Ev.drawIndexed indexCount 1 0 0 0,
     Ev.endPass,
     Ev.release Handle.renderPassEnc,
     Ev.finishEncoder,
     Ev.release Handle.commandEncoder,
     Ev.submit,
     Ev.release Handle.commandBuffer,
     Ev.release Handle.targetView,
     Ev.present,
     Ev.devicePoll]

/-- Model of `Application::IsRunning`: `!glfwWindowShouldClose(window)`. -/
def IsRunning (windowShouldClose : Bool) : Bool :=
  !windowShouldClose

/-! ## Buffer descriptors (`Application::InitializeBuffers`) -/

/-- The index-buffer size rounding from `InitializeBuffers`:
`bufferDesc.size = (bufferDesc.size + 3) & ~3;` in `uint64_t` arithmetic,
where `~3` as `uint64_t` is `2^64 - 4`. -/
def roundIndexBufferSize (n : Nat) : Nat :=
  ((n + 3) % 2 ^ 64) &&& (2 ^ 64 - 4)

/-- Value of `sizeof(uint16_t)`, the index element type. -/
def sizeofUint16 : Nat := 2

/-- The `bufferDesc` fields relevant to the claims (size in bytes and usage
flags). -/
structure BufferDescriptor where
  size : Nat
  usageCopyDst : Bool
  usageVertex : Bool
  usageIndex : Bool
  usageUniform : Bool
  mappedAtCreation : Bool
deriving DecidableEq, Repr

/-- Descriptor of the vertex (point) buffer:
`bufferDesc.size = pointData.size() * sizeof(float);` in `uint64_t`. -/
def pointBufferDesc (pointFloats : Nat) : BufferDescriptor :=
  { size := pointFloats * sizeofFloat % 2 ^ 64
    usageCopyDst := true, usageVertex := true
    usageIndex := false, usageUniform := false
    mappedAtCreation := false }

/-- Descriptor of the index buffer:
`bufferDesc.size = indexData.size() * sizeof(uint16_t);`
`bufferDesc.size = (bufferDesc.size + 3) & ~3;` in `uint64_t`. -/
def indexBufferDesc (indexCount : Nat) : BufferDescriptor :=
  { size := roundIndexBufferSize (indexCount * sizeofUint16 % 2 ^ 64)
    usageCopyDst := true, usageVertex := false
    usageIndex := true, usageUniform := false
    mappedAtCreation := false }

/-- Descriptor of the uniform buffer: `bufferDesc.size = sizeof(MyUniforms);`. -/
def uniformBufferDesc : BufferDescriptor :=
  { size := sizeofMyUniforms
    usageCopyDst := true, usageVertex := false
    usageIndex := false, usageUniform := true
    mappedAtCreation := false }

/-! ## Bind group layout and bind group
(`Application::InitializePipeline`, `Application::InitializeBindGroups`) -/

/-- WebGPU shader stage flags, as in the C API. -/
def ShaderStageVertex : Nat := 1

/-- WebGPU shader stage flag for the fragment stage. -/
def ShaderStageFragment : Nat := 2

/-- The `BufferBindingType` values used by the bind group layout. -/
inductive BufferBindingType where
  | Uniform
  | Storage
  | ReadOnlyStorage
deriving DecidableEq, Repr

/-- The single `BindGroupLayoutEntry` configured in `InitializePipeline`. -/
structure BindGroupLayoutEntry where
  binding : Nat
  visibility : Nat
  bufferType : BufferBindingType
  minBindingSize : Nat
deriving DecidableEq, Repr

/-- The `bindingLayout` entry from `InitializePipeline`: binding 0, visible to
vertex and fragment stages, a uniform buffer of minimum binding size
`sizeof(MyUniforms)`. -/
def bindingLayout : BindGroupLayoutEntry :=
  { binding := 0
    visibility := ShaderStageVertex ||| ShaderStageFragment
    bufferType := BufferBindingType.Uniform
    minBindingSize := sizeofMyUniforms }

/-- The pipeline layout's bind group layouts (`layoutDesc.bindGroupLayouts`):
a single entry, so `bindGroupLayout` is at group index 0. -/
def pipelineLayoutBindGroupLayouts : List Handle :=
  [Handle.bindGroupLayout]

/-- The single `BindGroupEntry` configured in `InitializeBindGroups`. -/
structure BindGroupEntry where
  binding : Nat
  buffer : BufId
  offset : Nat
  size : Nat
deriving DecidableEq, Repr

/-- The `binding` entry from `InitializeBindGroups`: binding 0 bound to the uniform
buffer at offset 0 with size `sizeof(MyUniforms)`. -/
def bindGroupBinding : BindGroupEntry :=
  { binding := 0
    buffer := BufId.uniformBuffer
    offset := 0
    size := sizeofMyUniforms }

/-! ## `Initialize` and `Terminate` -/

/-- The environment `Initialize` runs in: whether WebGPU instance creation
succeeds, whether the shader module loads, whether the geometry file
loads, and the sizes of the loaded geometry (number of floats of point
data and number of `uint16_t` indices). -/
structure InitEnv where
  instanceOk : Bool
  shaderOk : Bool
  geometryOk : Bool
  pointFloats : Nat
  indexCount : Nat
deriving DecidableEq, Repr

/-- Outcome of `Initialize`: either the function returns a `Bool` to its
caller, or the process exits with a code (via `exit(1)`). -/
inductive InitOutcome where
  | ret (events : List Ev) (val : Bool)
  | exited (events : List Ev) (code : Nat)
deriving DecidableEq, Repr

/-- Model of `Application::InitializePipeline`: loads the shader module and calls
`exit(1)` when it is null; otherwise creates the bind group layout, the
pipeline layout and the render pipeline, and releases the shader module.
Returns the events performed and `some code` when the process exited. -/
def InitializePipelineRun (shaderOk : Bool) : List Ev × Option Nat :=
  if shaderOk then
    ([Ev.create Handle.shaderModule,
      Ev.create Handle.bindGroupLayout,
      Ev.create Handle.layout,
      Ev.create Handle.pipeline,
      Ev.release Handle.shaderModule], none)
  else
    ([], some 1)

/-- Model of `Application::InitializeBuffers`: loads the geometry and calls
`exit(1)` on failure; otherwise creates and fills the point, index and
uniform buffers (the uniform upload covers the whole `MyUniforms` struct). -/
def InitializeBuffersRun (geometryOk : Bool) (pointFloats indexCount : Nat) :
    List Ev × Option Nat :=
  if geometryOk then
    ([Ev.create Handle.pointBuffer,
      Ev.writeBuffer BufId.pointBuffer 0 (pointBufferDesc pointFloats).size,
      Ev.create Handle.indexBuffer,
      Ev.writeBuffer BufId.indexBuffer 0 (indexBufferDesc indexCount).size,
      Ev.create Handle.uniformBuffer,
      Ev.writeBuffer BufId.uniformBuffer 0 sizeofMyUniforms], none)
  else
    ([], some 1)

/-- Model of `Application::InitializeBindGroups`: creates the bind group. -/
def InitializeBindGroupsRun : List Ev :=
  [Ev.create Handle.bindGroup]

/-- Model of `Application::Initialize`: opens the window, creates the instance
(returning `false` when that fails), obtains surface, adapter, device and
queue, configures the surface, then runs the pipeline, buffer and bind
group initialisation (each of which may `exit(1)`), and returns `true`. -/
def InitializeRun (env : InitEnv) : InitOutcome :=
  if env.instanceOk then
    let pre := [Ev.createWindow,
                Ev.create Handle.instanceH,
                Ev.create Handle.surface,
                Ev.create Handle.adapter,
                Ev.release Handle.instanceH,
                Ev.create Handle.device,
                Ev.create Handle.queue,
                Ev.configureSurface,
                Ev.release Handle.adapter]
    match InitializePipelineRun env.shaderOk with
    | (evs, some c) => InitOutcome.exited (pre ++ evs) c
    | (evs, none) =>
      match InitializeBuffersRun env.geometryOk env.pointFloats env.indexCount with
      | (evs2, some c) => InitOutcome.exited (pre ++ evs ++ evs2) c
      | (evs2, none) =>
        InitOutcome.ret (pre ++ evs ++ evs2 ++ InitializeBindGroupsRun) true
  else
    InitOutcome.ret [Ev.createWindow] false

/-- Model of `Application::Terminate`: the release sequence, in source order. -/
def TerminateRun : List Ev :=
  [Ev.release Handle.bindGroup,
   Ev.release Handle.layout,
   Ev.release Handle.bindGroupLayout,
   Ev.release Handle.uniformBuffer,
   Ev.release Handle.pointBuffer,
   Ev.release Handle.indexBuffer,
   Ev.release Handle.pipeline,
   Ev.unconfigureSurface,
   Ev.release Handle.queue,
   Ev.release Handle.surface,
   Ev.release Handle.device,
   Ev.destroyWindow]

/-! ## `main` -/

/-- Calls observable at the level of `main`. -/
inductive PEvent where
  | initializeCall
  | printInitFailure
  | mainLoopCall
  | terminateCall
deriving DecidableEq, Repr

/-- The environment's window-close flag: the window is flagged to close
just before frame number `closeAfter`. -/
def windowShouldClose (closeAfter frame : Nat) : Bool :=
  decide (closeAfter ≤ frame)

/-- The `while (app.IsRunning()) app.MainLoop();` loop of `main`, started
at frame number `frame`. -/
def mainLoopPhase (closeAfter frame : Nat) : List PEvent :=
  if h : IsRunning (windowShouldClose closeAfter frame) = true then
    PEvent.mainLoopCall :: mainLoopPhase closeAfter (frame + 1)
  else
    []
termination_by closeAfter - frame
decreasing_by
  simp [IsRunning, windowShouldClose] at h
  omega

/-- Outcome of running `main`: the process-level calls performed and the
exit code — `returned` when `main` returns normally, `exited` when the
process exits from inside `Initialize`. -/
inductive MainResult where
  | returned (events : List PEvent) (code : Nat)
  | exited (events : List PEvent) (code : Nat)
deriving DecidableEq, Repr

/-- Model of `main`: calls `Initialize` once; on `false` prints the failure message
and returns 1; on `true` runs the main loop while `IsRunning`, then calls
`Terminate` and returns 0. -/
def mainRun (env : InitEnv) (closeAfter : Nat) : MainResult :=
  match InitializeRun env with
  | InitOutcome.exited _ c =>
    MainResult.exited [PEvent.initializeCall] c
  | InitOutcome.ret _ false =>
    MainResult.returned [PEvent.initializeCall, PEvent.printInitFailure] 1
  | InitOutcome.ret _ true =>
    MainResult.returned
      (PEvent.initializeCall :: (mainLoopPhase closeAfter 0 ++ [PEvent.terminateCall])) 0

/-! ## Trace projections -/

/-- The `(offset, size)` pairs of the writes to the uniform buffer in a
trace. -/
def uniformWrites (tr : List Ev) : List (Nat × Nat) :=
  tr.filterMap fun e =>
    match e with
    | Ev.writeBuffer BufId.uniformBuffer o s => some (o, s)
    | _ => none

/-- The handles created in a trace, in order. -/
def creations (tr : List Ev) : List Handle :=
  tr.filterMap fun e =>
    match e with
    | Ev.create h => some h
    | _ => none

/-- The handles explicitly released in a trace, in order. -/
def releases (tr : List Ev) : List Handle :=
  tr.filterMap fun e =>
    match e with
    | Ev.release h => some h
    | _ => none

/-- The events of an `InitOutcome`. -/
def InitOutcome.events : InitOutcome → List Ev
  | InitOutcome.ret evs _ => evs
  | InitOutcome.exited evs _ => evs

/-- The value returned to the caller, when the function returned at all. -/
def InitOutcome.returnValue : InitOutcome → Option Bool
  | InitOutcome.ret _ v => some v
  | InitOutcome.exited _ _ => none

/-- The process exit code, when the process exited inside the function. -/
def InitOutcome.exitCode : InitOutcome → Option Nat
  | InitOutcome.ret _ _ => none
  | InitOutcome.exited _ c => some c

/-- The GPU resource handles named by the resource-lifetime claim: the
members of `Application` holding GPU objects. -/
def trackedHandles : List Handle :=
  [Handle.surface, Handle.device, Handle.queue, Handle.bindGroupLayout,
   Handle.layout, Handle.pipeline, Handle.pointBuffer, Handle.indexBuffer,
   Handle.uniformBuffer, Handle.bindGroup]

/-! ## Helper lemmas -/

/-- Masking with `~3` as a 64-bit value truncates to 64 bits and clears the
low two bits. -/
theorem land_mask (x : Nat) : x &&& (2 ^ 64 - 4) = x % 2 ^ 64 / 4 * 4 := by
  have hmask : (2 ^ 64 - 4 : Nat) = (2 ^ 62 - 1) <<< 2 := by
    rw [Nat.shiftLeft_eq]; norm_num
  have hrhs : x % 2 ^ 64 / 4 * 4 = ((x % 2 ^ 64) >>> 2) <<< 2 := by
    rw [Nat.shiftLeft_eq, Nat.shiftRight_eq_div_pow]
  rw [hmask, hrhs]
  apply Nat.eq_of_testBit_eq
  intro i
  rw [Nat.testBit_land, Nat.testBit_shiftLeft, Nat.testBit_shiftLeft,
    Nat.testBit_two_pow_sub_one, Nat.testBit_shiftRight, Nat.testBit_mod_two_pow]
  by_cases h2 : 2 ≤ i
  · have hi : 2 + (i - 2) = i := by omega
    have h3 : decide (i - 2 < 62) = decide (i < 64) := by
      simp only [decide_eq_decide]; omega
    rw [hi, h3]
    cases x.testBit i <;> cases decide (i ≥ 2) <;> cases decide (i < 64) <;> rfl
  · have h0 : decide (i ≥ 2) = false := by simpa using h2
    rw [h0]
    cases x.testBit i <;> rfl

/-- The main-loop phase runs `MainLoop` once per frame until the window is
flagged to close. -/
theorem mainLoopPhase_eq_replicate (c f : Nat) :
    mainLoopPhase c f = List.replicate (c - f) PEvent.mainLoopCall := by
  have H : ∀ n f, c - f = n →
      mainLoopPhase c f = List.replicate n PEvent.mainLoopCall := by
    intro n
    induction n with
    | zero =>
      intro f hf
      rw [mainLoopPhase]
      have hstop : ¬ IsRunning (windowShouldClose c f) = true := by
        simp [IsRunning, windowShouldClose]
        omega
      rw [dif_neg hstop]
      rfl
    | succ m ih =>
      intro f hf
      rw [mainLoopPhase]
      have hrun : IsRunning (windowShouldClose c f) = true := by
        simp [IsRunning, windowShouldClose]
        omega
      rw [dif_pos hrun, ih (f + 1) (by omega), List.replicate_succ]
  exact H (c - f) f rfl

/-! ## Claim theorems -/

/-- C5: the `MyUniforms` struct is a 4-float color vector followed by a
float time scalar and 3 floats of padding, for a total of 32 bytes — a
multiple of 16 — so the `static_assert(sizeof(MyUniforms) % 16 == 0)`
holds, and the uniform buffer descriptor uses exactly this size. -/
theorem myUniforms_layout_and_buffer_size :
    sizeofMyUniforms = 4 * sizeofFloat + sizeofFloat + 3 * sizeofFloat ∧
    sizeofMyUniforms = 32 ∧
    sizeofMyUniforms % 16 = 0 ∧
    uniformBufferDesc.size = sizeofMyUniforms ∧
    offsetofTime = 4 * sizeofFloat := by
  refine ⟨rfl, by decide, by decide, rfl, rfl⟩

/-- C6: for a loaded index payload of `n` bytes (any `n` with `n + 3`
representable in 64 bits), the rounding `(n + 3) & ~3` used for the index
buffer size yields exactly the least multiple of 4 greater than or equal
to `n`, and the index buffer descriptor is created with that size. -/
theorem index_buffer_size_rounding (n : Nat) (h : n + 3 < 2 ^ 64) :
    roundIndexBufferSize n = 4 * ((n + 3) / 4) ∧
    4 ∣ roundIndexBufferSize n ∧
    n ≤ roundIndexBufferSize n ∧
    (∀ m, 4 ∣ m → n ≤ m → roundIndexBufferSize n ≤ m) ∧
    (∀ count, (indexBufferDesc count).size =
      roundIndexBufferSize (count * sizeofUint16 % 2 ^ 64)) := by
  have hr : roundIndexBufferSize n = 4 * ((n + 3) / 4) := by
    rw [roundIndexBufferSize, land_mask, Nat.mod_eq_of_lt h,
      Nat.mod_eq_of_lt h]
    omega
  refine ⟨hr, ?_, ?_, ?_, fun _ => rfl⟩
  · rw [hr]; exact Dvd.intro _ rfl
  · rw [hr]; omega
  · intro m hm hnm
    rw [hr]
    obtain ⟨q, rfl⟩ := hm
    omega

/-- Witness for C6 at `n = 6` bytes (three `uint16_t` indices): the
rounded size is 8. -/
theorem index_buffer_size_rounding_witness :
    6 + 3 < 2 ^ 64 ∧ roundIndexBufferSize 6 = 4 * ((6 + 3) / 4) :=
  ⟨by norm_num, (index_buffer_size_rounding 6 (by norm_num)).1⟩

/-- C9 counterexample: for a loaded index list of 3 indices (6 bytes of
index data), the byte count passed to `writeBuffer` is the rounded-up
buffer size 8, which exceeds the 6-byte length of the index data array —
so the upload reads past the end of the array. -/
theorem index_upload_overrun_at_odd_count :
    (indexBufferDesc 3).size = 8 ∧
    3 * sizeofUint16 = 6 ∧
    ¬ (indexBufferDesc 3).size ≤ 3 * sizeofUint16 ∧
    Ev.writeBuffer BufId.indexBuffer 0 (indexBufferDesc 3).size ∈
      (InitializeBuffersRun true 15 3).1 := by
  refine ⟨by decide, by decide, by decide, ?_⟩
  simp [InitializeBuffersRun]

/-- C9 amended: the byte count uploaded from the index data array equals
the array's byte length when the index count is even, and exceeds it by
exactly 2 bytes (an out-of-bounds read) when the index count is odd; in
all cases it is at most the array length plus 2. -/
theorem index_upload_bounds (count : Nat)
    (h : count * sizeofUint16 + 3 < 2 ^ 64) :
    (indexBufferDesc count).size ≤ count * sizeofUint16 + 2 ∧
    (count % 2 = 0 → (indexBufferDesc count).size = count * sizeofUint16) ∧
    (count % 2 = 1 →
      (indexBufferDesc count).size = count * sizeofUint16 + 2) := by
  have hlt : count * sizeofUint16 < 2 ^ 64 := by omega
  have hsize : (indexBufferDesc count).size =
      4 * ((count * sizeofUint16 + 3) / 4) := by
    show roundIndexBufferSize (count * sizeofUint16 % 2 ^ 64) = _
    rw [Nat.mod_eq_of_lt hlt]
    exact (index_buffer_size_rounding (count * sizeofUint16) h).1
  rw [hsize]
  simp only [sizeofUint16]
  omega

/-- Witness for C9 at `count = 4`: the uploaded size equals the 8-byte
array length. -/
theorem index_upload_bounds_witness :
    4 * sizeofUint16 + 3 < 2 ^ 64 ∧
    (indexBufferDesc 4).size = 4 * sizeofUint16 :=
  ⟨by decide, (index_upload_bounds 4 (by decide)).2.1 rfl⟩

/-- C3 counterexample: in a successful frame the only write to the
uniform buffer is 4 bytes at `offsetof(MyUniforms, time) = 16`; the full
`MyUniforms` struct (32 bytes at offset 0, color included) is never
written by `MainLoop`. -/
theorem uniform_full_struct_not_written_per_frame :
    uniformWrites (MainLoop SurfaceStatus.Success 6) =
      [(offsetofTime, sizeofFloat)] ∧
    offsetofTime = 16 ∧ sizeofFloat = 4 ∧ sizeofMyUniforms = 32 ∧
    Ev.writeBuffer BufId.uniformBuffer 0 sizeofMyUniforms ∉
      MainLoop SurfaceStatus.Success 6 := by
  refine ⟨by decide, by decide, by decide, by decide, by decide⟩

/-- C3 amended: on every `MainLoop` iteration — whether or not the surface
texture is acquired — exactly one write goes to the uniform buffer: the
4-byte time scalar at `offsetof(MyUniforms, time)`; the full uniform
struct (color vector plus time scalar) is written into the buffer once by
`InitializeBuffers`. -/
theorem uniform_writes_per_frame (status : SurfaceStatus)
    (n pointFloats indexCount : Nat) :
    uniformWrites (MainLoop status n) = [(offsetofTime, sizeofFloat)] ∧
    uniformWrites (InitializeBuffersRun true pointFloats indexCount).1 =
      [(0, sizeofMyUniforms)] := by
  constructor
  · cases status <;>
      simp [MainLoop, GetNextSurfaceTextureView, uniformWrites]
  · simp [InitializeBuffersRun, uniformWrites]

/-- C4 counterexample: the release sequence of `Terminate` is not the
exact reverse of the creation order of the ten `Application` GPU handles
(for instance the pipeline layout is released second, whereas the reverse
of the creation order would release the uniform buffer second). -/
theorem terminate_release_order_not_exact_reverse :
    releases TerminateRun =
      [Handle.bindGroup, Handle.layout, Handle.bindGroupLayout,
       Handle.uniformBuffer, Handle.pointBuffer, Handle.indexBuffer,
       Handle.pipeline, Handle.queue, Handle.surface, Handle.device] ∧
    (creations (InitializeRun ⟨true, true, true, 15, 6⟩).events).filter
        (fun h => decide (h ∈ trackedHandles)) =
      [Handle.surface, Handle.device, Handle.queue, Handle.bindGroupLayout,
       Handle.layout, Handle.pipeline, Handle.pointBuffer,
       Handle.indexBuffer, Handle.uniformBuffer, Handle.bindGroup] ∧
    releases TerminateRun ≠
      ((creations (InitializeRun ⟨true, true, true, 15, 6⟩).events).filter
        (fun h => decide (h ∈ trackedHandles))).reverse := by
  refine ⟨by decide, by decide, by decide⟩

/-- C4 amended: every one of the ten GPU resource handles created during
a fully successful `Initialize` (surface, device, queue, bind group
layout, pipeline layout, pipeline, point buffer, index buffer, uniform
buffer, bind group) is explicitly released exactly once during
`Terminate`; the release order is `bindGroup, layout, bindGroupLayout,
uniformBuffer, pointBuffer, indexBuffer, pipeline, queue, surface,
device`, which is roughly but not exactly the reverse of the creation
order. -/
theorem terminate_release_discipline (env : InitEnv)
    (h1 : env.instanceOk = true) (h2 : env.shaderOk = true)
    (h3 : env.geometryOk = true) :
    (creations (InitializeRun env).events).filter
        (fun h => decide (h ∈ trackedHandles)) =
      [Handle.surface, Handle.device, Handle.queue, Handle.bindGroupLayout,
       Handle.layout, Handle.pipeline, Handle.pointBuffer,
       Handle.indexBuffer, Handle.uniformBuffer, Handle.bindGroup] ∧
    releases TerminateRun =
      [Handle.bindGroup, Handle.layout, Handle.bindGroupLayout,
       Handle.uniformBuffer, Handle.pointBuffer, Handle.indexBuffer,
       Handle.pipeline, Handle.queue, Handle.surface, Handle.device] ∧
    (∀ h ∈ trackedHandles, (releases TerminateRun).count h = 1) ∧
    releases TerminateRun ≠
      ((creations (InitializeRun env).events).filter
        (fun h => decide (h ∈ trackedHandles))).reverse := by
  obtain ⟨i, s, g, p, n⟩ := env
  cases i with
  | false => cases h1
  | true =>
    cases s with
    | false => cases h2
    | true =>
      cases g with
      | false => cases h3
      | true =>
        refine ⟨?_, by decide, by decide, ?_⟩
        · simp [InitializeRun, InitializePipelineRun, InitializeBuffersRun,
            InitializeBindGroupsRun, InitOutcome.events, creations,
            trackedHandles]
        · intro hcontra
          rw [show (creations (InitializeRun ⟨true, true, true, p, n⟩).events).filter
              (fun h => decide (h ∈ trackedHandles)) =
              [Handle.surface, Handle.device, Handle.queue,
               Handle.bindGroupLayout, Handle.layout, Handle.pipeline,
               Handle.pointBuffer, Handle.indexBuffer, Handle.uniformBuffer,
               Handle.bindGroup] from by
            simp [InitializeRun, InitializePipelineRun, InitializeBuffersRun,
              InitializeBindGroupsRun, InitOutcome.events, creations,
              trackedHandles]] at hcontra
          exact absurd hcontra (by decide)

/-- Witness for C4 at the all-success environment. -/
theorem terminate_release_discipline_witness :
    (releases TerminateRun).count Handle.device = 1 := by
  have h := terminate_release_discipline ⟨true, true, true, 15, 6⟩
    rfl rfl rfl
  exact h.2.2.1 Handle.device (by decide)

/-- C1: in every `MainLoop` iteration in which the surface texture is
acquired successfully, the frame protocol occurs in order: the surface
texture view is acquired, the render pass is begun, the pipeline, the
point (vertex) buffer, the index buffer and the uniform bind group are
bound — all before the indexed draw call — then the command buffer is
finished and submitted, and finally the surface is presented. -/
theorem frame_order_on_successful_acquire (status : SurfaceStatus) (n : Nat)
    (h : (GetNextSurfaceTextureView status).isSome = true) :
    List.Sublist
      [Ev.acquireSurfaceView, Ev.beginRenderPass, Ev.setPipeline,
       Ev.setVertexBuffer 0 BufId.pointBuffer,
       Ev.setIndexBuffer BufId.indexBuffer, Ev.setBindGroup 0,
       Ev.drawIndexed n 1 0 0 0, Ev.finishEncoder, Ev.submit, Ev.present]
      (MainLoop status n) := by
  cases status
  case Success =>
    have hML : MainLoop SurfaceStatus.Success n =
        [Ev.pollEvents,
         Ev.writeBuffer BufId.uniformBuffer offsetofTime sizeofFloat,
         Ev.acquireSurfaceView, Ev.create Handle.commandEncoder,
         Ev.beginRenderPass, Ev.setPipeline,
         Ev.setVertexBuffer 0 BufId.pointBuffer,
         Ev.setIndexBuffer BufId.indexBuffer, Ev.setBindGroup 0,
         Ev.drawIndexed n 1 0 0 0, Ev.endPass,
         Ev.release Handle.renderPassEnc, Ev.finishEncoder,
         Ev.release Handle.commandEncoder, Ev.submit,
         Ev.release Handle.commandBuffer, Ev.release Handle.targetView,
         Ev.present, Ev.devicePoll] := rfl
    rw [hML]
    repeat first
      | exact List.Sublist.slnil
      | apply List.Sublist.cons₂
      | apply List.Sublist.cons
  all_goals simp [GetNextSurfaceTextureView] at h

/-- Witness for C1 at a successful frame with 6 indices. -/
theorem frame_order_on_successful_acquire_witness :
    (GetNextSurfaceTextureView SurfaceStatus.Success).isSome = true ∧
    List.Sublist
      [Ev.acquireSurfaceView, Ev.beginRenderPass, Ev.setPipeline,
       Ev.setVertexBuffer 0 BufId.pointBuffer,
       Ev.setIndexBuffer BufId.indexBuffer, Ev.setBindGroup 0,
       Ev.drawIndexed 6 1 0 0 0, Ev.finishEncoder, Ev.submit, Ev.present]
      (MainLoop SurfaceStatus.Success 6) :=
  ⟨by decide,
   frame_order_on_successful_acquire SurfaceStatus.Success 6 (by decide)⟩

/-- C8: `GetNextSurfaceTextureView` returns a null view exactly when the
surface reports a status other than `Success`; whenever it does,
`MainLoop` returns right after the time-uniform write, encoding no render
pass, submitting nothing and presenting nothing. -/
theorem null_view_early_return (status : SurfaceStatus) (n : Nat) :
    (GetNextSurfaceTextureView status = none ↔
      status ≠ SurfaceStatus.Success) ∧
    (GetNextSurfaceTextureView status = none →
      MainLoop status n =
        [Ev.pollEvents,
         Ev.writeBuffer BufId.uniformBuffer offsetofTime sizeofFloat] ∧
      Ev.beginRenderPass ∉ MainLoop status n ∧
      Ev.submit ∉ MainLoop status n ∧
      Ev.present ∉ MainLoop status n ∧
      Ev.writeBuffer BufId.uniformBuffer offsetofTime sizeofFloat ∈
        MainLoop status n) := by
  cases status <;> simp [GetNextSurfaceTextureView, MainLoop]

/-- Witness for C8 at a timed-out frame. -/
theorem null_view_early_return_witness :
    MainLoop SurfaceStatus.Timeout 0 =
      [Ev.pollEvents,
       Ev.writeBuffer BufId.uniformBuffer offsetofTime sizeofFloat] ∧
    Ev.submit ∉ MainLoop SurfaceStatus.Timeout 0 := by
  have h := (null_view_early_return SurfaceStatus.Timeout 0).2 (by decide)
  exact ⟨h.1, h.2.2.1⟩

/-- C2: `main` calls `Initialize` once; exactly when it returns `true`,
`main` runs `MainLoop` once per frame while `IsRunning` holds — and
`IsRunning` is true exactly when the window has not been flagged to close
— then calls `Terminate` exactly once and returns 0; when `Initialize`
returns `false`, no `MainLoop` or `Terminate` call happens and `main`
returns 1. -/
theorem main_four_phase_shape (env : InitEnv) (k : Nat) :
    (∀ w, IsRunning w = true ↔ w = false) ∧
    ((InitializeRun env).returnValue = some true →
      mainRun env k =
        MainResult.returned
          (PEvent.initializeCall ::
            (List.replicate k PEvent.mainLoopCall ++
              [PEvent.terminateCall])) 0) ∧
    ((InitializeRun env).returnValue = some false →
      mainRun env k =
        MainResult.returned
          [PEvent.initializeCall, PEvent.printInitFailure] 1) := by
  refine ⟨fun w => by cases w <;> simp [IsRunning], ?_, ?_⟩ <;> intro h <;>
    cases hI : InitializeRun env with
  | ret evs b =>
    rw [hI] at h
    simp only [InitOutcome.returnValue, Option.some.injEq] at h
    subst h
    simp [mainRun, hI, mainLoopPhase_eq_replicate]
  | exited evs c =>
    rw [hI] at h
    simp [InitOutcome.returnValue] at h

/-- Witness for C2 in an all-success environment closing after 2 frames. -/
theorem main_four_phase_shape_witness :
    mainRun ⟨true, true, true, 15, 6⟩ 2 =
      MainResult.returned
        (PEvent.initializeCall ::
          (List.replicate 2 PEvent.mainLoopCall ++
            [PEvent.terminateCall])) 0 :=
  (main_four_phase_shape ⟨true, true, true, 15, 6⟩ 2).2.1 (by decide)

/-- C7: the uniform buffer is exposed to the shaders as per-frame
parameters: bound at binding 0 (in the bind group set at group index 0)
with binding size `sizeof(MyUniforms)`, visible to both the vertex and
fragment stages, and initialised with time 1.0 and color
(0.0, 1.0, 0.4, 1.0). -/
theorem uniform_binding_exposure (n : Nat) :
    bindingLayout.binding = 0 ∧
    bindingLayout.bufferType = BufferBindingType.Uniform ∧
    bindingLayout.minBindingSize = sizeofMyUniforms ∧
    bindingLayout.visibility &&& ShaderStageVertex ≠ 0 ∧
    bindingLayout.visibility &&& ShaderStageFragment ≠ 0 ∧
    bindGroupBinding.binding = 0 ∧
    bindGroupBinding.buffer = BufId.uniformBuffer ∧
    bindGroupBinding.offset = 0 ∧
    bindGroupBinding.size = sizeofMyUniforms ∧
    pipelineLayoutBindGroupLayouts = [Handle.bindGroupLayout] ∧
    Ev.setBindGroup 0 ∈ MainLoop SurfaceStatus.Success n ∧
    initialUniforms.time = 1 ∧
    initialUniforms.color = (0, 1, 0.4, 1) := by
  refine ⟨rfl, rfl, rfl, by decide, by decide, rfl, rfl, rfl, rfl, rfl,
    ?_, rfl, rfl⟩
  simp [MainLoop, GetNextSurfaceTextureView]

/-- C10: `Initialize` returns `false` exactly when instance creation
fails; a shader-module or geometry load failure instead exits the process
with code 1; consequently the failure branch of `main` (printing the
message and returning 1) is reached exactly for instance-creation
failure. -/
theorem initialize_failure_modes (env : InitEnv) (k : Nat) :
    ((InitializeRun env).returnValue = some false ↔
      env.instanceOk = false) ∧
    (env.instanceOk = true → env.shaderOk = false →
      (InitializeRun env).exitCode = some 1) ∧
    (env.instanceOk = true → env.shaderOk = true → env.geometryOk = false →
      (InitializeRun env).exitCode = some 1) ∧
    ((∃ evs, mainRun env k = MainResult.returned evs 1 ∧
        PEvent.printInitFailure ∈ evs) ↔ env.instanceOk = false) := by
  obtain ⟨i, s, g, p, n⟩ := env
  cases i <;> cases s <;> cases g <;>
    simp [InitializeRun, InitializePipelineRun, InitializeBuffersRun,
      InitializeBindGroupsRun, InitOutcome.returnValue, InitOutcome.exitCode,
      mainRun, mainLoopPhase_eq_replicate, List.mem_replicate]

/-- Witness for C10: shader-load failure and geometry-load failure both
exit with code 1. -/
theorem initialize_failure_modes_witness :
    (InitializeRun ⟨true, false, true, 15, 6⟩).exitCode = some 1 ∧
    (InitializeRun ⟨true, true, false, 15, 6⟩).exitCode = some 1 :=
  ⟨(initialize_failure_modes ⟨true, false, true, 15, 6⟩ 0).2.1 rfl rfl,
   (initialize_failure_modes ⟨true, true, false, 15, 6⟩ 0).2.2.1 rfl rfl rfl⟩

end LearnWebGPU
